import Mathlib

/-!
Shallow embedding of the Pizza-Ordering-System backend routes
(`backend/routes/order.routes.js`, `backend/routes/admin.routes.js`,
`backend/middleware/admin.middleware.js`, `backend/middleware/auth.middleware.js`)
and of the frontend cart store (`frontend/src/context/CartContext.jsx`).

Monetary values are embedded as rationals (`ℚ`); database stores are lists of
records; each Express route handler becomes a pure function from the request
and the current store to a response together with the updated store.
-/

namespace Pizza

/-- Hex character test, used by the Mongo ObjectId shape check
(24 hexadecimal characters). -/
def isHexChar (c : Char) : Bool :=
  c.isDigit || (('a' ≤ c) && (c ≤ 'f')) || (('A' ≤ c) && (c ≤ 'F'))

/-- A string is ObjectId-shaped when it is exactly 24 hex characters.
Models `mongoose.Types.ObjectId.isValid` on strings (backend) and the
frontend regex test in `CartContext.jsx`. -/
def isValidObjectIdStr (s : String) : Bool :=
  s.length = 24 && s.toList.all isHexChar

/-- Whitespace trimming, as performed by JavaScript `String.prototype.trim`
and by express-validator's `.trim()` sanitizer: drops leading and trailing
whitespace. -/
def jsTrim (s : String) : String :=
  String.mk (((s.toList.dropWhile Char.isWhitespace).reverse.dropWhile
    Char.isWhitespace).reverse)

namespace Backend

/-- A user record, as selected by the middleware and admin routes
(`backend/database/models/User`): role string, block state and block
metadata. -/
structure User where
  uid : ℕ
  email : String
  full_name : String
  role : String
  is_verified : Bool
  is_blocked : Bool
  blocked_reason : Option String
  blocked_at : Option ℕ
  blocked_by : Option ℕ
deriving DecidableEq, Repr

/-- Look a user up by id in the users store (`User.findById`). -/
def findUser (users : List User) (uid : ℕ) : Option User :=
  users.find? (fun u => u.uid == uid)

/-- Outcome of a guard middleware: the HTTP response it short-circuits
with, or `allow` meaning `next()` was called. -/
inductive AuthResp where
  | unauthorized
  | userNotFound
  | blocked (reason : Option String)
  | forbidden (userRole : String)
  | allow
deriving DecidableEq, Repr

/-- A guard outcome together with whether the middleware destroyed the
session (`req.session.destroy()`). -/
structure GuardOutcome where
  resp : AuthResp
  sessionDestroyed : Bool
deriving DecidableEq, Repr

/-- `isAuthenticated` from `backend/middleware/auth.middleware.js`: requires a
session-bound user; destroys the session and answers 401 when the user record
is gone, destroys the session and answers 403 with the stored
`blocked_reason` when the user is blocked; otherwise calls `next()`. -/
def isAuthenticated (users : List User) (session : Option ℕ) : GuardOutcome :=
  match session with
  | none => ⟨.unauthorized, false⟩
  | some uid =>
    match findUser users uid with
    | none => ⟨.userNotFound, true⟩
    | some u =>
      if u.is_blocked then ⟨.blocked u.blocked_reason, true⟩
      else ⟨.allow, false⟩

/-- `userOnly` from `backend/middleware/admin.middleware.js`: requires a
session-bound user whose role is not `admin`; it performs no block check and
never destroys the session. -/
def userOnly (users : List User) (session : Option ℕ) : GuardOutcome :=
  match session with
  | none => ⟨.unauthorized, false⟩
  | some uid =>
    match findUser users uid with
    | none => ⟨.userNotFound, false⟩
    | some u =>
      if u.role == "admin" then ⟨.forbidden "admin", false⟩
      else ⟨.allow, false⟩

/-- `adminOnly` from `backend/middleware/admin.middleware.js`: requires a
session-bound user whose role is `admin`; it performs no block check and
never destroys the session. -/
def adminOnly (users : List User) (session : Option ℕ) : GuardOutcome :=
  match session with
  | none => ⟨.unauthorized, false⟩
  | some uid =>
    match findUser users uid with
    | none => ⟨.userNotFound, false⟩
    | some u =>
      if u.role == "admin" then ⟨.allow, false⟩
      else ⟨.forbidden "customer", false⟩

/-- One entry of an order's `status_history`. -/
structure StatusEntry where
  status : String
  timestamp : ℕ
  note : String
deriving DecidableEq, Repr

/-- A persisted order line item (`items` subdocument of the Order model, as
built by the order-creation routes). -/
structure LineItem where
  product : String
  name : String
  quantity : ℚ
  size : Option String
  crust : Option String
  unit_price : ℚ
  total_price : ℚ
deriving DecidableEq, Repr

/-- Delivery address subdocument of an order. -/
structure Address where
  no : String
  street : String
  city : String
  province : String
  zip_code : String
  contact1 : String
  contact2 : String
deriving DecidableEq, Repr

/-- A persisted order (`backend/database/models/Order`), restricted to the
fields the routes under verification read or write. -/
structure Order where
  oid : ℕ
  customer : ℕ
  order_number : String
  items : List LineItem
  subtotal : ℚ
  delivery_fee : ℚ
  total : ℚ
  status : String
  payment_status : String
  payment_method : String
  status_history : List StatusEntry
  estimated_delivery_time : ℕ
  delivery_address : Option Address
deriving DecidableEq, Repr

/-- Non-terminal status test: the creation route counts orders whose status
is not in `['delivered', 'cancelled']`. -/
def nonTerminal (st : String) : Bool :=
  !(st == "delivered") && !(st == "cancelled")

/-- `Order.countDocuments({ customer: userId, status: { $nin: ['delivered',
'cancelled'] } })` over the embedded order store. -/
def activeOrdersCount (store : List Order) (uid : ℕ) : ℕ :=
  (store.filter (fun o => o.customer == uid && nonTerminal o.status)).length

/-- The status whitelist checked by `PATCH /:id/status`. -/
def validStatuses : List String :=
  ["confirmed", "preparing", "ready", "out_for_delivery", "delivered", "cancelled"]

/-- Response of the status-transition route. -/
inductive StatusResp where
  | invalidStatus
  | notFound
  | ok
deriving DecidableEq, Repr

/-- Find an order by id (`Order.findById`). -/
def findOrder (store : List Order) (oid : ℕ) : Option Order :=
  store.find? (fun o => o.oid == oid)

/-- `PATCH /:id/status` from `backend/routes/order.routes.js`: rejects a
status outside `validStatuses` with 400 `Invalid status`; 404 when the order
is missing; otherwise sets `order.status` and pushes one
`{status, timestamp, note}` entry (defaulting the note) before saving. -/
def transitionStatus (store : List Order) (oid : ℕ) (status : String)
    (note : Option String) (now : ℕ) : StatusResp × List Order :=
  if !(validStatuses.contains status) then (.invalidStatus, store)
  else
    match findOrder store oid with
    | none => (.notFound, store)
    | some o =>
      let entry : StatusEntry :=
        { status := status, timestamp := now,
          note := note.getD ("Status updated to " ++ status) }
      let updated : Order :=
        { o with status := status, status_history := o.status_history ++ [entry] }
      (.ok, store.map (fun x => if x.oid == oid then updated else x))

/-- Response of the customer single-order route. -/
inductive GetOrderResp where
  | notFound
  | ok (o : Order)
deriving DecidableEq, Repr

/-- `Order.findOne({ _id: req.params.id, customer: req.session.userId })`. -/
def findOwnOrder (store : List Order) (uid oid : ℕ) : Option Order :=
  store.find? (fun o => o.oid == oid && o.customer == uid)

/-- `GET /:id` from `backend/routes/order.routes.js`: looks the order up by
id and session customer together, answering 404 when no such order exists. -/
def getOrderRoute (store : List Order) (uid oid : ℕ) : GetOrderResp :=
  match findOwnOrder store uid oid with
  | none => .notFound
  | some o => .ok o

/-- An authoritative catalog product: current price and availability
(`backend/database/models/Product`, consulted by the price validator). -/
structure Product where
  price : ℚ
  is_available : Bool
deriving DecidableEq, Repr

/-- The product catalog, keyed by product id string. -/
abbrev Catalog := List (String × Product)

/-- Catalog lookup by product id (`Product.findById`). -/
def lookupProduct (cat : Catalog) (pid : String) : Option Product :=
  (cat.find? (fun p => p.1 == pid)).map Prod.snd

/-- A submitted cart line as it arrives in the request body of the order
creation routes: the id fields mirror `item._id || item.id`. -/
structure CartItemReq where
  _id : Option String
  id : Option String
  name : String
  description : String
  image : String
  quantity : ℚ
  price : ℚ
  selectedSize : Option String
  selectedCrust : Option String
deriving DecidableEq, Repr

/-- The product id of a submitted item: `item._id || item.id`, where a
missing or empty `_id` is falsy and falls through to `id`. -/
def pidOf (it : CartItemReq) : Option String :=
  match it._id with
  | some s => if s == "" then it.id else some s
  | none => it.id

/-- Whether the resolved product id passes `mongoose.Types.ObjectId.isValid`
(an absent id is not valid). -/
def objectIdOk (pid : Option String) : Bool :=
  match pid with
  | none => false
  | some s => isValidObjectIdStr s

/-- One entry of the validator's error list. -/
inductive ValidationError where
  | invalidProduct (pid : Option String)
  | priceMismatch (pid : String) (claimed authoritative : ℚ)
  | totalMismatch (claimed recomputed : ℚ)
deriving DecidableEq, Repr

/-- The validator's structured result. -/
structure ValidationResult where
  isValid : Bool
  errors : List ValidationError
deriving DecidableEq, Repr

/-- Request body of `POST /` (customer checkout): items, claimed amounts,
delivery type and info, optional promo code. -/
structure OrderReq where
  items : List CartItemReq
  subtotal : ℚ
  deliveryFee : ℚ
  total : ℚ
  deliveryType : String
  deliveryInfo : Address
  paymentMethod : String
  promoCode : Option String
deriving DecidableEq, Repr

/-- Modelled from the spec: the per-item check of `validateOrder` from
`backend/utils/priceValidation.js`, whose source is not among the provided
files. Per spec section 4.2 the validator fetches the authoritative product
for each line item and fails with `InvalidProduct` if the product does not
exist or is unavailable, and with `PriceMismatch` if the claimed unit price
deviates from the authoritative price beyond a zero tolerance (exact match
required). -/
def itemError (cat : Catalog) (it : CartItemReq) : Option ValidationError :=
  match pidOf it with
  | none => some (.invalidProduct none)
  | some pid =>
    match lookupProduct cat pid with
    | none => some (.invalidProduct (some pid))
    | some p =>
      if !p.is_available then some (.invalidProduct (some pid))
      else if it.price ≠ p.price then some (.priceMismatch pid it.price p.price)
      else none

/-- Modelled from the spec: the validator independently recomputes the line
total of an item from the authoritative catalog price times the submitted
quantity (0 when the product cannot be resolved, in which case an
`InvalidProduct` error is raised anyway). -/
def authLineTotal (cat : Catalog) (it : CartItemReq) : ℚ :=
  match pidOf it with
  | none => 0
  | some pid =>
    match lookupProduct cat pid with
    | none => 0
    | some p => p.price * it.quantity

/-- Modelled from the spec: recomputed subtotal, the sum of
authoritative-price times quantity over the submitted items. -/
def recomputedSubtotal (cat : Catalog) (items : List CartItemReq) : ℚ :=
  (items.map (authLineTotal cat)).sum

/-- Modelled from the spec: the delivery fee is recomputed from the delivery
type alone — takeaway means 0, otherwise the fee supplied by the external
fee policy (a parameter of the embedding). -/
def recomputedFee (feePolicy : ℚ) (deliveryType : String) : ℚ :=
  if deliveryType == "takeaway" then 0 else feePolicy

/-- The small fixed epsilon absorbing floating-point noise in the total
comparison (0.01, spec section 8). -/
def priceEpsilon : ℚ := 1 / 100

/-- Modelled from the spec: `validateOrder` from
`backend/utils/priceValidation.js` (file not among the provided sources).
It collects the per-item errors, recomputes total = recomputed subtotal +
recomputed delivery fee, adds a `TotalMismatch` error when the
client-submitted total disagrees with the recomputed total beyond the
epsilon, and is valid exactly when the error list is empty. It never
inspects the client-submitted `subtotal` or `deliveryFee` fields on their
own. -/
def validateOrder (cat : Catalog) (feePolicy : ℚ) (req : OrderReq) : ValidationResult :=
  let itemErrs := req.items.filterMap (itemError cat)
  let rTotal := recomputedSubtotal cat req.items + recomputedFee feePolicy req.deliveryType
  let errs :=
    if priceEpsilon < |req.total - rTotal| then itemErrs ++ [.totalMismatch req.total rTotal]
    else itemErrs
  { isValid := errs.isEmpty, errors := errs }

/-- Environment of a single run of the customer creation route: the catalog
and fee policy behind the validator, the date string and `Math.random` draw
behind the order number, the clock, a fresh document id, and the outcome of
the external promo-abuse oracle (`backend/utils/fraudDetection.js`, not
among the provided sources). -/
structure CreateEnv where
  catalog : Catalog
  feePolicy : ℚ
  dateStr : String
  rand : ℚ
  now : ℕ
  nextId : ℕ
  promoAbuse : Bool
deriving Repr

/-- `Math.floor(1000 + Math.random() * 9000)`: the four-digit random part of
a customer order number, as a function of the `Math.random()` draw. -/
def randomDraw (r : ℚ) : ℤ :=
  (1000 + r * 9000 : ℚ).floor

/-- The customer order number: `ORD-<YYYYMMDD>-<random>`. -/
def customerOrderNumber (dateStr : String) (r : ℚ) : String :=
  "ORD-" ++ dateStr ++ "-" ++ toString (randomDraw r)

/-- Response of `POST /` (customer checkout). -/
inductive CreateResp where
  | orderLimitReached (activeOrders : ℕ)
  | staleCart (pid : Option String)
  | validationFailed (errors : List ValidationError)
  | promoAbuse
  | created (orderId : ℕ) (orderNumber : String)
deriving DecidableEq, Repr

/-- The first submitted item whose resolved product id fails the ObjectId
check, if any (the stale-cart loop of the creation routes). -/
def findInvalidPid (items : List CartItemReq) : Option (Option String) :=
  (items.find? (fun it => !objectIdOk (pidOf it))).map pidOf

/-- A submitted item turned into its persisted line-item snapshot. -/
def mkLineItem (it : CartItemReq) : LineItem :=
  { product := (pidOf it).getD "",
    name := it.name,
    quantity := it.quantity,
    size := it.selectedSize,
    crust := it.selectedCrust,
    unit_price := it.price,
    total_price := it.price * it.quantity }

/-- The sentinel address substituted for takeaway orders. -/
def takeawayAddress : Address :=
  { no := "N/A", street := "Takeaway (Pick up at Store)", city := "N/A",
    province := "N/A", zip_code := "N/A", contact1 := "N/A", contact2 := "N/A" }

/-- The order document built and saved by `POST /` on the successful path:
the claimed amounts are stored as submitted, the status is `confirmed` with
one seeded history entry, the order number comes from the date and the
random draw, and the delivery address is the submitted one for delivery or
the takeaway sentinel. -/
def persistedCustomerOrder (env : CreateEnv) (uid : ℕ) (req : OrderReq) : Order :=
  { oid := env.nextId,
    customer := uid,
    order_number := customerOrderNumber env.dateStr env.rand,
    items := req.items.map mkLineItem,
    subtotal := req.subtotal,
    delivery_fee := req.deliveryFee,
    total := req.total,
    status := "confirmed",
    payment_status := "paid",
    payment_method := req.paymentMethod,
    status_history := [{ status := "confirmed", timestamp := env.now,
                         note := "Order created" }],
    estimated_delivery_time := env.now + 45 * 60 * 1000,
    delivery_address :=
      if req.deliveryType == "delivery" then some req.deliveryInfo
      else if req.deliveryType == "takeaway" then some takeawayAddress
      else none }

/-- `POST /` from `backend/routes/order.routes.js` (customer checkout), after
the `userOnly` guard: cap of 5 active orders, stale-cart product-id check,
price validation, promo-abuse check, then construction and persistence of the
order. Returns the response and the updated order store. -/
def createOrder (env : CreateEnv) (store : List Order) (uid : ℕ) (req : OrderReq) :
    CreateResp × List Order :=
  let active := activeOrdersCount store uid
  if 5 ≤ active then (.orderLimitReached active, store)
  else
    match findInvalidPid req.items with
    | some pid => (.staleCart pid, store)
    | none =>
      let v := validateOrder env.catalog env.feePolicy req
      if !v.isValid then (.validationFailed v.errors, store)
      else if req.promoCode.isSome && env.promoAbuse then (.promoAbuse, store)
      else
        let newOrder := persistedCustomerOrder env uid req
        (.created env.nextId newOrder.order_number, store ++ [newOrder])

/-- Request body of `POST /admin/create` (manual order entry). -/
structure AdminCreateReq where
  customerId : Option ℕ
  items : List CartItemReq
  subtotal : ℚ
  deliveryFee : ℚ
  total : ℚ
  deliveryType : String
  paymentMethod : String
  payment_status : String
  status : String
  note : Option String
deriving DecidableEq, Repr

/-- Response of `POST /admin/create`. -/
inductive AdminCreateResp where
  | missingFields
  | customerNotFound
  | invalidProductId (pid : Option String)
  | validationFailed (errors : List ValidationError)
  | created (orderId : ℕ) (orderNumber : String)
deriving DecidableEq, Repr

/-- The admin order number: `ORD` ++ `Date.now()` ++ (current order count + 1),
with no dashes and no random part. -/
def adminOrderNumber (now : ℕ) (orderCount : ℕ) : String :=
  "ORD" ++ toString now ++ toString (orderCount + 1)

/-- The admin request repackaged as the validator's input (the route passes
the same fields; the promo code is absent and the delivery info plays no
role in validation). -/
def adminReqAsOrderReq (req : AdminCreateReq) : OrderReq :=
  { items := req.items, subtotal := req.subtotal,
    deliveryFee := req.deliveryFee, total := req.total,
    deliveryType := req.deliveryType, deliveryInfo := takeawayAddress,
    paymentMethod := req.paymentMethod, promoCode := none }

/-- The order document created by `POST /admin/create` on the successful
path: submitted amounts and status stored as given, one seeded history
entry, and the count-based order number. -/
def persistedAdminOrder (env : CreateEnv) (cid : ℕ) (orderCount : ℕ)
    (req : AdminCreateReq) : Order :=
  { oid := env.nextId,
    customer := cid,
    order_number := adminOrderNumber env.now orderCount,
    items := req.items.map mkLineItem,
    subtotal := req.subtotal,
    delivery_fee := req.deliveryFee,
    total := req.total,
    status := req.status,
    payment_status := req.payment_status,
    payment_method := req.paymentMethod,
    status_history := [{ status := req.status, timestamp := env.now,
                         note := req.note.getD "Order created manually by admin" }],
    estimated_delivery_time := 0,
    delivery_address := none }

/-- `POST /admin/create` from `backend/routes/order.routes.js`, after the
`adminOnly` guard: required-field check (`!customerId || !items ||
items.length === 0 || !total`, so a zero total is treated as missing),
customer lookup, product-id check, price validation, then persistence with
the submitted amounts and status and a count-based order number. -/
def adminCreateOrder (env : CreateEnv) (users : List User) (store : List Order)
    (req : AdminCreateReq) : AdminCreateResp × List Order :=
  if req.customerId == none || req.items == [] || req.total == 0 then
    (.missingFields, store)
  else
    match req.customerId with
    | none => (.missingFields, store)
    | some cid =>
      match findUser users cid with
      | none => (.customerNotFound, store)
      | some _ =>
        match findInvalidPid req.items with
        | some pid => (.invalidProductId pid, store)
        | none =>
          let v := validateOrder env.catalog env.feePolicy (adminReqAsOrderReq req)
          if !v.isValid then (.validationFailed v.errors, store)
          else
            let newOrder := persistedAdminOrder env cid store.length req
            (.created env.nextId newOrder.order_number, store ++ [newOrder])

/-- Response of the admin user-management routes
(`backend/routes/admin.routes.js`). -/
inductive AdminUserResp where
  | validationErrors
  | selfAction
  | notFound
  | cannotModifyAdmin
  | alreadyBlocked
  | notBlocked
  | emailInUse
  | ok
deriving DecidableEq, Repr

/-- JavaScript `a || b` on an optional string: an absent or empty string
falls through to the default. -/
def jsOrStr (a : Option String) (b : String) : String :=
  match a with
  | some s => if s == "" then b else s
  | none => b

/-- Replace the user with the given id in the users store (the effect of
saving the mutated document). -/
def updateUserStore (users : List User) (targetId : ℕ) (u : User) : List User :=
  users.map (fun x => if x.uid == targetId then u else x)

/-- The express-validator check on the block route: an optional `reason`
must be 5 to 500 characters once trimmed. -/
def blockReasonHasErrors (reason : Option String) : Bool :=
  match reason with
  | some r => !(decide (5 ≤ (jsTrim r).length) && decide ((jsTrim r).length ≤ 500))
  | none => false

/-- `PATCH /users/:id/block` from `backend/routes/admin.routes.js`: body
validation, self-block guard, target lookup, admin-target guard,
already-blocked guard, then sets `is_blocked` with reason (defaulted through
JavaScript `||`), timestamp and blocking admin. -/
def blockUser (users : List User) (adminId targetId : ℕ) (reason : Option String)
    (now : ℕ) : AdminUserResp × List User :=
  if blockReasonHasErrors reason then (.validationErrors, users)
  else if targetId == adminId then (.selfAction, users)
  else
    match findUser users targetId with
    | none => (.notFound, users)
    | some u =>
      if u.role == "admin" then (.cannotModifyAdmin, users)
      else if u.is_blocked then (.alreadyBlocked, users)
      else
        let blockedU : User :=
          { u with is_blocked := true,
                   blocked_reason := some (jsOrStr reason "Blocked by admin"),
                   blocked_at := some now,
                   blocked_by := some adminId }
        (.ok, updateUserStore users targetId blockedU)

/-- `PATCH /users/:id/unblock` from `backend/routes/admin.routes.js`: target
lookup and not-blocked guard only — there is no self guard and no
admin-target guard on this route — then clears the four block fields. -/
def unblockUser (users : List User) (targetId : ℕ) : AdminUserResp × List User :=
  match findUser users targetId with
  | none => (.notFound, users)
  | some u =>
    if !u.is_blocked then (.notBlocked, users)
    else
      let clearedU : User :=
        { u with is_blocked := false, blocked_reason := none,
                 blocked_at := none, blocked_by := none }
      (.ok, updateUserStore users targetId clearedU)

/-- Body of `PUT /users/:id`. The `address` sub-object, which no claim under
verification touches, is elided. -/
structure UpdateUserBody where
  full_name : Option String
  email : Option String
  role : Option String
  is_verified : Option Bool
deriving DecidableEq, Repr

/-- Coarse model of express-validator's `isEmail` check (its exact grammar is
library code; the theorems never depend on it beyond well-formed inputs
passing). -/
def emailFormatOk (s : String) : Bool :=
  s.toList.contains (Char.ofNat 64)

/-- The express-validator checks on `PUT /users/:id`: optional trimmed
`full_name` of 2 to 100 characters, optional email format, optional `role`
restricted to `customer` or `admin`. -/
def updateBodyHasErrors (b : UpdateUserBody) : Bool :=
  (match b.full_name with
   | some s => !(decide (2 ≤ (jsTrim s).length) && decide ((jsTrim s).length ≤ 100))
   | none => false)
  || (match b.email with
      | some e => !emailFormatOk e
      | none => false)
  || (match b.role with
      | some r => !(r == "customer" || r == "admin")
      | none => false)

/-- `PUT /users/:id` from `backend/routes/admin.routes.js`: body validation,
self-edit guard, target lookup, duplicate-email guard, then applies the
submitted fields (`full_name` only when truthy, `role` and `is_verified`
whenever present, `email` only when truthy and different from the current
one). There is no admin-target guard on this route: the role of another
admin can be edited. -/
def updateUser (users : List User) (adminId targetId : ℕ) (body : UpdateUserBody) :
    AdminUserResp × List User :=
  if updateBodyHasErrors body then (.validationErrors, users)
  else if targetId == adminId then (.selfAction, users)
  else
    match findUser users targetId with
    | none => (.notFound, users)
    | some u =>
      let emailChange : Option String :=
        match body.email with
        | some e => if e ≠ "" && e ≠ u.email then some e else none
        | none => none
      let emailConflict :=
        match emailChange with
        | some e => users.any (fun x => !(x.uid == targetId) && x.email == e)
        | none => false
      if emailConflict then (.emailInUse, users)
      else
        let updatedU : User :=
          { u with
            full_name := jsOrStr body.full_name u.full_name,
            role := body.role.getD u.role,
            is_verified := body.is_verified.getD u.is_verified,
            email := emailChange.getD u.email }
        (.ok, updateUserStore users targetId updatedU)

/-- `DELETE /users/:id` from `backend/routes/admin.routes.js`: self-delete
guard, target lookup, admin-target guard, then removes the record
(`User.findByIdAndDelete`). -/
def deleteUser (users : List User) (adminId targetId : ℕ) : AdminUserResp × List User :=
  if targetId == adminId then (.selfAction, users)
  else
    match findUser users targetId with
    | none => (.notFound, users)
    | some u =>
      if u.role == "admin" then (.cannotModifyAdmin, users)
      else (.ok, users.filter (fun x => !(x.uid == targetId)))

end Backend

namespace Frontend

/-- A JSON scalar usable as a product id in a persisted cart item: stale
carts can hold numeric ids, current ones hold strings. -/
inductive JsId where
  | jnum (n : ℤ)
  | jstr (s : String)
deriving DecidableEq, Repr

/-- A cart item as held in the React cart state and in `localStorage`
(`frontend/src/context/CartContext.jsx`). -/
structure FCartItem where
  _id : Option JsId
  id : Option JsId
  name : String
  price : ℚ
  quantity : ℤ
  selectedSize : Option String
  selectedCrust : Option String
deriving DecidableEq, Repr

/-- JavaScript truthiness of an optional id value: `undefined`, `0` and the
empty string are falsy. -/
def jsTruthyId (v : Option JsId) : Bool :=
  match v with
  | none => false
  | some (.jnum n) => !(n == 0)
  | some (.jstr s) => !(s == "")

/-- The resolved product id `item._id || item.id`. -/
def productIdOf (it : FCartItem) : Option JsId :=
  if jsTruthyId it._id then it._id else it.id

/-- `isValidObjectId` from `CartContext.jsx`: the value must be a string of
24 hex characters (`/^[a-f\d]\x7b24\x7d$/i`); non-strings are rejected. -/
def isValidObjectIdJs (v : Option JsId) : Bool :=
  match v with
  | some (.jstr s) => Pizza.isValidObjectIdStr s
  | _ => false

/-- Whether a trimmed string parses as a JavaScript decimal numeric literal:
optional sign, then digits with an optional fractional part or a bare
fractional part, then an optional exponent. -/
def decNumericChars : List Char → Bool
  | [] => false
  | cs =>
    let afterSign := match cs with
      | c :: rest => if c == '+' || c == '-' then rest else cs
      | [] => cs
    let intPart := afterSign.takeWhile Char.isDigit
    let rest1 := afterSign.dropWhile Char.isDigit
    let (fracOk, rest2) :=
      match rest1 with
      | '.' :: rest => (intPart ≠ [] || (rest.takeWhile Char.isDigit) ≠ [],
                        rest.dropWhile Char.isDigit)
      | _ => (intPart ≠ [], rest1)
    let expOk :=
      match rest2 with
      | [] => true
      | e :: rest =>
        if e == 'e' || e == 'E' then
          let afterExpSign := match rest with
            | c :: r => if c == '+' || c == '-' then r else rest
            | [] => rest
          afterExpSign ≠ [] && afterExpSign.all Char.isDigit
        else false
    fracOk && expOk && (rest2 == [] || expOk)

/-- Whether the character list is an ECMAScript non-decimal integer literal:
`0b`/`0B` followed by binary digits, `0o`/`0O` followed by octal digits, or
`0x`/`0X` followed by hex digits. Per the StringNumericLiteral grammar these
take no sign and need at least one digit. A `0b` literal of 22 binary digits
is 24 characters drawn from `[a-f\d]`, so this family matters here: such a
string is ObjectId-shaped and still numeric under `Number`. -/
def nonDecIntChars : List Char → Bool
  | '0' :: b :: rest =>
    if b == 'b' || b == 'B' then
      !rest.isEmpty && rest.all (fun c => c == '0' || c == '1')
    else if b == 'o' || b == 'O' then
      !rest.isEmpty && rest.all (fun c => ('0' ≤ c) && (c ≤ '7'))
    else if b == 'x' || b == 'X' then
      !rest.isEmpty && rest.all Pizza.isHexChar
    else false
  | _ => false

/-- Models the JavaScript `Number(s)` coercion not producing `NaN`
(the StringNumericLiteral grammar): the trimmed string is empty (coerced to
0), a decimal numeric literal, a binary/octal/hexadecimal integer literal,
or an infinity literal. -/
def strIsNumericJs (s : String) : Bool :=
  let t := jsTrim s
  t == "" || decNumericChars t.toList || nonDecIntChars t.toList ||
    t == "Infinity" || t == "+Infinity" || t == "-Infinity"

/-- JavaScript `isNaN(v)` for the id values in play: numbers are never `NaN`
here, `undefined` coerces to `NaN`, strings coerce through `Number`. -/
def jsIsNaN (v : Option JsId) : Bool :=
  match v with
  | none => true
  | some (.jnum _) => false
  | some (.jstr s) => !strIsNumericJs s

/-- The stale-data test applied per persisted item during cart hydration
(`CartContext.jsx`): missing id, numeric id (`typeof productId ===
'number'`), numeric-string id (`!isNaN(productId)`), or an id failing the
ObjectId shape check. -/
def hasStaleId (it : FCartItem) : Bool :=
  let productId := productIdOf it
  !jsTruthyId productId
    || (match productId with | some (.jnum _) => true | _ => false)
    || !jsIsNaN productId
    || !isValidObjectIdJs productId

/-- The persisted `cartItems` entry of `localStorage`: absent, present but
failing `JSON.parse`, or parsed to a list of items. -/
inductive StoredCart where
  | absent
  | malformed
  | parsed (items : List FCartItem)
deriving DecidableEq, Repr

/-- The `useState` initializer of `CartProvider`: no entry hydrates an empty
cart; a parse failure clears the entry and hydrates empty; a parsed list
with any stale item clears the entry and hydrates empty; otherwise the full
parsed list is restored. The boolean records whether
`localStorage.removeItem` ran. -/
def hydrateCart : StoredCart → List FCartItem × Bool
  | .absent => ([], false)
  | .malformed => ([], true)
  | .parsed items =>
    if items.any hasStaleId then ([], true) else (items, false)

/-- `isValidCartItem` from `CartContext.jsx`: the resolved product id is
truthy and ObjectId-shaped. -/
def isValidCartItem (it : FCartItem) : Bool :=
  jsTruthyId (productIdOf it) && isValidObjectIdJs (productIdOf it)

/-- The match used by `addToCart` and `updateQuantity`: same `id` field (not
`_id`), same selected size, same selected crust. -/
def sameKey (it : FCartItem) (id : Option JsId) (size crust : Option String) : Bool :=
  it.id == id && it.selectedSize == size && it.selectedCrust == crust

/-- `addToCart` from `CartContext.jsx`: rejects an invalid product, bumps the
quantity of an existing item with the same id, size and crust, and otherwise
appends the product with quantity 1. -/
def addToCart (cart : List FCartItem) (product : FCartItem) : List FCartItem :=
  if !isValidCartItem product then cart
  else if cart.any (fun it => sameKey it product.id product.selectedSize product.selectedCrust) then
    cart.map (fun it =>
      if sameKey it product.id product.selectedSize product.selectedCrust then
        { it with quantity := it.quantity + 1 }
      else it)
  else cart ++ [{ product with quantity := 1 }]

/-- `removeFromCart` from `CartContext.jsx`. -/
def removeFromCart (cart : List FCartItem) (id : Option JsId)
    (size crust : Option String) : List FCartItem :=
  cart.filter (fun it => !sameKey it id size crust)

/-- `updateQuantity` from `CartContext.jsx`: applies the delta to the matched
item only when the resulting quantity is positive, returning the item
unchanged otherwise; non-matching items pass through. -/
def updateQuantity (cart : List FCartItem) (id : Option JsId)
    (size crust : Option String) (delta : ℤ) : List FCartItem :=
  cart.map (fun it =>
    if sameKey it id size crust then
      let newQuantity := it.quantity + delta
      if 0 < newQuantity then { it with quantity := newQuantity } else it
    else it)

/-- `clearCart` from `CartContext.jsx`. -/
def clearCart : List FCartItem := []

end Frontend

namespace Backend

/-- Whether a creation response is the order-cap rejection. -/
def isOrderLimitResp : CreateResp → Bool
  | .orderLimitReached _ => true
  | _ => false

/-- Whether a creation response is the price-validation rejection. -/
def isValidationFailedResp : CreateResp → Bool
  | .validationFailed _ => true
  | _ => false

/-- Whether a creation response is the success response. -/
def isCreatedResp : CreateResp → Bool
  | .created _ _ => true
  | _ => false

/-- Whether some submitted line item resolves to an available catalog product
whose price differs from the claimed one (the validator raises a
`PriceMismatch` for it). -/
def hasPriceMismatch (cat : Catalog) (items : List CartItemReq) : Bool :=
  items.any (fun it =>
    match itemError cat it with
    | some (.priceMismatch _ _ _) => true
    | _ => false)

theorem hasPriceMismatch_itemErrs_ne_nil (cat : Catalog) (items : List CartItemReq)
    (h : hasPriceMismatch cat items = true) :
    items.filterMap (itemError cat) ≠ [] := by
  rw [hasPriceMismatch, List.any_eq_true] at h
  obtain ⟨it, hmem, hp⟩ := h
  intro hnil
  cases he : itemError cat it with
  | none => rw [he] at hp; simp at hp
  | some e =>
    have : e ∈ items.filterMap (itemError cat) :=
      List.mem_filterMap.mpr ⟨it, hmem, he⟩
    rw [hnil] at this
    exact absurd this (List.not_mem_nil e)

theorem hasPriceMismatch_not_valid (cat : Catalog) (fee : ℚ) (req : OrderReq)
    (h : hasPriceMismatch cat req.items = true) :
    (validateOrder cat fee req).isValid = false := by
  have hne := hasPriceMismatch_itemErrs_ne_nil cat req.items h
  rw [validateOrder]
  simp only
  split
  · cases hh : req.items.filterMap (itemError cat) with
    | nil => exact absurd hh hne
    | cons a l => simp [hh]
  · cases hh : req.items.filterMap (itemError cat) with
    | nil => exact absurd hh hne
    | cons a l => simp [hh]

theorem findOrder_update (store : List Order) (oid : ℕ) (upd : Order)
    (hupd : (upd.oid == oid) = true) (h : (findOrder store oid).isSome = true) :
    findOrder (store.map (fun x => if x.oid == oid then upd else x)) oid = some upd := by
  induction store with
  | nil => simp [findOrder] at h
  | cons x xs ih =>
    by_cases hx : (x.oid == oid) = true
    · simp [findOrder, List.find?, hx, hupd]
    · have hx' : (x.oid == oid) = false := Bool.eq_false_iff.mpr hx
      have h' : (findOrder xs oid).isSome = true := by
        rw [findOrder, List.find?_cons, hx'] at h
        exact h
      have hfx : (if x.oid == oid then upd else x) = x := if_neg hx
      rw [findOrder]
      simp only [List.map_cons, hfx]
      rw [List.find?_cons, hx']
      exact ih h'

/-- C3. Customer order creation answers `orderLimitReached` exactly when the
requesting customer has at least 5 orders in a non-terminal status, and the
response carries that active-order count; with 4 or fewer such orders the cap
check passes. -/
theorem createOrder_limit_iff (env : CreateEnv) (store : List Order) (uid : ℕ)
    (req : OrderReq) :
    (isOrderLimitResp (createOrder env store uid req).1 = true ↔
      5 ≤ activeOrdersCount store uid) ∧
    (5 ≤ activeOrdersCount store uid →
      (createOrder env store uid req).1 = .orderLimitReached (activeOrdersCount store uid)) := by
  rw [createOrder]
  simp only
  split
  · next hc =>
    constructor
    · constructor
      · intro _; exact hc
      · intro _; rfl
    · intro _; rfl
  · next hc =>
    constructor
    · constructor
      · intro hresp
        exfalso
        split at hresp
        · next => simp [isOrderLimitResp] at hresp
        · split at hresp
          · simp [isOrderLimitResp] at hresp
          · split at hresp
            · simp [isOrderLimitResp] at hresp
            · simp [isOrderLimitResp] at hresp
      · intro hge; exact absurd hge hc
    · intro hge; exact absurd hge hc

/-- C3 witness: a customer with 5 confirmed orders is refused, at a concrete
store of five confirmed orders. -/
def witnessOrder : Order :=
  { oid := 0, customer := 7, order_number := "ORD-20261012-5500",
    items := [], subtotal := 20, delivery_fee := 2, total := 22,
    status := "confirmed", payment_status := "paid", payment_method := "card",
    status_history := [], estimated_delivery_time := 0, delivery_address := none }

/-- A store of five confirmed (hence non-terminal) orders of customer 7. -/
def fiveOrdersStore : List Order :=
  (List.range 5).map (fun i => { witnessOrder with oid := i })

/-- The catalog of the concrete scenarios: one available product priced 10. -/
def concreteCatalog : Catalog :=
  [("aaaaaaaaaaaaaaaaaaaaaaaa", { price := 10, is_available := true })]

/-- A well-formed submitted item claiming the catalog price. -/
def concreteItem : CartItemReq :=
  { _id := some "aaaaaaaaaaaaaaaaaaaaaaaa", id := none, name := "Margherita",
    description := "Classic", image := "img", quantity := 2, price := 10,
    selectedSize := some "M", selectedCrust := none }

/-- A well-formed checkout request whose amounts match the catalog. -/
def concreteReq : OrderReq :=
  { items := [concreteItem], subtotal := 20, deliveryFee := 2, total := 22,
    deliveryType := "delivery", deliveryInfo := takeawayAddress,
    paymentMethod := "card", promoCode := none }

/-- The environment of the concrete scenarios. -/
def concreteEnv : CreateEnv :=
  { catalog := concreteCatalog, feePolicy := 2, dateStr := "20261012",
    rand := 1/2, now := 1000, nextId := 42, promoAbuse := false }

theorem createOrder_limit_iff_witness :
    (createOrder concreteEnv fiveOrdersStore 7 concreteReq).1 = .orderLimitReached 5 ∧
    isOrderLimitResp (createOrder concreteEnv [] 7 concreteReq).1 = false := by
  constructor
  · have h5 : activeOrdersCount fiveOrdersStore 7 = 5 := by decide
    have := (createOrder_limit_iff concreteEnv fiveOrdersStore 7 concreteReq).2
      (by rw [h5])
    rw [h5] at this
    exact this
  · cases hb : isOrderLimitResp (createOrder concreteEnv [] 7 concreteReq).1
    · rfl
    · have := (createOrder_limit_iff concreteEnv [] 7 concreteReq).1.mp hb
      have hz : activeOrdersCount ([] : List Order) 7 = 0 := by decide
      rw [hz] at this
      omega

/-- C6. For an existing order, a status outside the fixed whitelist is
rejected with `Invalid status` and the store is unchanged, while any
whitelisted status is accepted from any current status (no transition table,
terminal states included): the order's status becomes the new value and
exactly one `{status, timestamp, note}` entry is appended to its history. -/
theorem transitionStatus_spec (store : List Order) (oid : ℕ) (status : String)
    (note : Option String) (now : ℕ) (o : Order)
    (hfind : findOrder store oid = some o) :
    (validStatuses.contains status = false →
      transitionStatus store oid status note now = (.invalidStatus, store)) ∧
    (validStatuses.contains status = true →
      (transitionStatus store oid status note now).1 = .ok ∧
      findOrder (transitionStatus store oid status note now).2 oid =
        some { o with
               status := status,
               status_history := o.status_history ++
                 [{ status := status, timestamp := now,
                    note := note.getD ("Status updated to " ++ status) }] }) := by
  constructor
  · intro hbad
    rw [transitionStatus, hbad]
    rfl
  · intro hgood
    have hbeq : (o.oid == oid) = true := by
      have := List.find?_some hfind
      exact this
    rw [transitionStatus, hgood]
    simp only [Bool.not_true, Bool.false_eq_true, if_false, hfind]
    refine ⟨trivial, ?_⟩
    exact findOrder_update store oid _ hbeq (by rw [hfind]; rfl)

/-- C6 witness: at a concrete store holding one delivered (terminal) order,
the bogus status `shipped` is rejected with the store unchanged, and the
transition back to `confirmed` is accepted, appending one history entry. -/
def deliveredOrder : Order :=
  { witnessOrder with
    oid := 11, status := "delivered",
    status_history := [{ status := "confirmed", timestamp := 0, note := "Order created" }] }

theorem transitionStatus_spec_witness :
    transitionStatus [deliveredOrder] 11 "shipped" none 5 = (.invalidStatus, [deliveredOrder]) ∧
    (transitionStatus [deliveredOrder] 11 "confirmed" none 5).1 = .ok ∧
    findOrder (transitionStatus [deliveredOrder] 11 "confirmed" none 5).2 11 =
      some { deliveredOrder with
             status := "confirmed",
             status_history := deliveredOrder.status_history ++
               [{ status := "confirmed", timestamp := 5,
                  note := "Status updated to confirmed" }] } := by
  have hfind : findOrder [deliveredOrder] 11 = some deliveredOrder := by decide
  have h := transitionStatus_spec [deliveredOrder] 11 "shipped" none 5 deliveredOrder hfind
  have h2 := transitionStatus_spec [deliveredOrder] 11 "confirmed" none 5 deliveredOrder hfind
  refine ⟨h.1 (by decide), ?_, ?_⟩
  · exact (h2.2 (by decide)).1
  · have := (h2.2 (by decide)).2
    simpa using this

/-- C7. The customer single-order route returns an order only when it is the
requested order and belongs to the requesting session customer; when every
order with the requested id belongs to someone else (or no such order
exists), it answers 404 with no order data. -/
theorem getOrderRoute_own_only (store : List Order) (uid oid : ℕ) :
    (∀ o, getOrderRoute store uid oid = .ok o →
      o ∈ store ∧ o.oid = oid ∧ o.customer = uid) ∧
    ((∀ o ∈ store, o.oid = oid → ¬o.customer = uid) →
      getOrderRoute store uid oid = .notFound) := by
  constructor
  · intro o hok
    rw [getOrderRoute] at hok
    cases hf : findOwnOrder store uid oid with
    | none => rw [hf] at hok; exact absurd hok (by simp)
    | some o2 =>
      rw [hf] at hok
      have ho2 : o2 = o := by
        cases hok
        rfl
      subst ho2
      have hmem := List.mem_of_find?_eq_some hf
      have hpred := List.find?_some hf
      simp only [Bool.and_eq_true, beq_iff_eq] at hpred
      exact ⟨hmem, hpred.1, hpred.2⟩
  · intro hnone
    rw [getOrderRoute]
    have : findOwnOrder store uid oid = none := by
      rw [findOwnOrder]
      rw [List.find?_eq_none]
      intro x hx
      simp only [Bool.and_eq_true, beq_iff_eq, not_and]
      intro hoid
      exact hnone x hx hoid
    rw [this]

/-- C7 witness: a store holding order 11 of customer 9 answers 404 to
customer 8 asking for order 11, and any `ok` answer to customer 9 is their
own order. -/
def otherCustomerOrder : Order :=
  { witnessOrder with oid := 11, customer := 9 }

theorem getOrderRoute_own_only_witness :
    getOrderRoute [otherCustomerOrder] 8 11 = .notFound := by
  exact (getOrderRoute_own_only [otherCustomerOrder] 8 11).2 (by decide)

theorem hasPriceMismatch_errors_ne_nil (cat : Catalog) (fee : ℚ) (req : OrderReq)
    (h : hasPriceMismatch cat req.items = true) :
    (validateOrder cat fee req).errors ≠ [] := by
  have hne := hasPriceMismatch_itemErrs_ne_nil cat req.items h
  rw [validateOrder]
  simp only
  split
  · cases hh : req.items.filterMap (itemError cat) with
    | nil => exact absurd hh hne
    | cons a l => simp [hh]
  · exact hne

/-- C1 (amended). Whenever some submitted line item resolves to an available
catalog product whose price differs from the claimed one, no order is
persisted by the checkout route — the store is returned unchanged — and,
provided the request also passes the earlier gates (fewer than 5 active
orders, all product ids ObjectId-shaped), the response is the 400
`validationFailed` one carrying the validator's non-empty itemized error
list. -/
theorem createOrder_priceMismatch_rejected (env : CreateEnv) (store : List Order)
    (uid : ℕ) (req : OrderReq)
    (hmm : hasPriceMismatch env.catalog req.items = true) :
    (createOrder env store uid req).2 = store ∧
    (activeOrdersCount store uid < 5 → findInvalidPid req.items = none →
      (createOrder env store uid req).1 =
        .validationFailed (validateOrder env.catalog env.feePolicy req).errors ∧
      (validateOrder env.catalog env.feePolicy req).errors ≠ []) := by
  have hvalid := hasPriceMismatch_not_valid env.catalog env.feePolicy req hmm
  have herrs := hasPriceMismatch_errors_ne_nil env.catalog env.feePolicy req hmm
  rw [createOrder]
  simp only
  split
  · next hc =>
    exact ⟨by trivial, fun hlt _ => absurd hc (by omega)⟩
  · next hc =>
    split
    · next pid heq =>
      refine ⟨by trivial, fun _ hnone => ?_⟩
      rw [heq] at hnone
      exact absurd hnone (by simp)
    · next heq =>
      rw [hvalid]
      simp only [Bool.not_false, if_true]
      exact ⟨by trivial, fun _ _ => ⟨by trivial, herrs⟩⟩

/-- A submitted item claiming price 12 for the catalog product priced 10. -/
def mismatchItem : CartItemReq :=
  { concreteItem with price := 12 }

/-- A checkout request carrying the mismatched price. -/
def mismatchReq : OrderReq :=
  { concreteReq with items := [mismatchItem], subtotal := 24, total := 26 }

theorem createOrder_priceMismatch_rejected_witness :
    (createOrder concreteEnv [] 7 mismatchReq).2 = [] ∧
    (createOrder concreteEnv [] 7 mismatchReq).1 =
      .validationFailed (validateOrder concreteEnv.catalog concreteEnv.feePolicy mismatchReq).errors := by
  have h := createOrder_priceMismatch_rejected concreteEnv [] 7 mismatchReq (by decide)
  exact ⟨h.1, (h.2 (by decide) (by decide)).1⟩

/-- C1 counterexample to the claim as stated: a request with a line-item
price differing from the catalog price, submitted by a customer who already
has 5 active orders, is rejected with the `orderLimitReached` response, not
the `validationFailed` one (though still with no order persisted). -/
theorem createOrder_priceMismatch_cex :
    hasPriceMismatch concreteEnv.catalog mismatchReq.items = true ∧
    isValidationFailedResp (createOrder concreteEnv fiveOrdersStore 7 mismatchReq).1 = false ∧
    (createOrder concreteEnv fiveOrdersStore 7 mismatchReq).1 = .orderLimitReached 5 ∧
    (createOrder concreteEnv fiveOrdersStore 7 mismatchReq).2 = fiveOrdersStore := by
  decide

theorem validateOrder_isValid_total (cat : Catalog) (fee : ℚ) (req : OrderReq)
    (h : (validateOrder cat fee req).isValid = true) :
    |req.total - (recomputedSubtotal cat req.items + recomputedFee fee req.deliveryType)| ≤
      priceEpsilon := by
  rw [validateOrder] at h
  simp only at h
  by_cases hε : priceEpsilon <
      |req.total - (recomputedSubtotal cat req.items + recomputedFee fee req.deliveryType)|
  · rw [if_pos hε] at h
    simp at h
  · exact le_of_not_lt hε

theorem createOrder_created_shape (env : CreateEnv) (store : List Order) (uid : ℕ)
    (req : OrderReq) (oid : ℕ) (num : String)
    (h : (createOrder env store uid req).1 = .created oid num) :
    (createOrder env store uid req).1 =
      .created env.nextId (customerOrderNumber env.dateStr env.rand) ∧
    (createOrder env store uid req).2 = store ++ [persistedCustomerOrder env uid req] ∧
    (validateOrder env.catalog env.feePolicy req).isValid = true := by
  by_cases h5 : 5 ≤ activeOrdersCount store uid
  · rw [createOrder] at h
    simp [if_pos h5] at h
  · cases hp : findInvalidPid req.items with
    | some pid =>
      rw [createOrder] at h
      simp [if_neg h5, hp] at h
    | none =>
      cases hv : (validateOrder env.catalog env.feePolicy req).isValid with
      | false =>
        rw [createOrder] at h
        simp [if_neg h5, hp, hv] at h
      | true =>
        cases hpromo : req.promoCode.isSome && env.promoAbuse with
        | true =>
          rw [createOrder] at h
          simp [if_neg h5, hp, hv, hpromo] at h
        | false =>
          refine ⟨?_, ?_, rfl⟩
          · rw [createOrder]
            simp [if_neg h5, hp, hv, hpromo]
            rfl
          · rw [createOrder]
            simp [if_neg h5, hp, hv, hpromo]

theorem adminCreateOrder_created_shape (env : CreateEnv) (users : List User)
    (store : List Order) (req : AdminCreateReq) (oid : ℕ) (num : String) (cid : ℕ)
    (hcid : req.customerId = some cid)
    (h : (adminCreateOrder env users store req).1 = .created oid num) :
    (adminCreateOrder env users store req).1 =
      .created env.nextId (adminOrderNumber env.now store.length) ∧
    (adminCreateOrder env users store req).2 =
      store ++ [persistedAdminOrder env cid store.length req] ∧
    (validateOrder env.catalog env.feePolicy (adminReqAsOrderReq req)).isValid = true := by
  cases hb0 : (req.customerId == none || req.items == [] || req.total == 0) with
  | true =>
    simp [hcid] at hb0
    rw [adminCreateOrder] at h
    rcases hb0 with hb | hb <;> simp [hb] at h
  | false =>
    simp [hcid] at hb0
    cases hu : findUser users cid with
    | none =>
      rw [adminCreateOrder] at h
      simp [hb0.1, hb0.2, hcid, hu] at h
    | some u =>
      cases hp : findInvalidPid req.items with
      | some pid =>
        rw [adminCreateOrder] at h
        simp [hb0.1, hb0.2, hcid, hu, hp] at h
      | none =>
        cases hv : (validateOrder env.catalog env.feePolicy (adminReqAsOrderReq req)).isValid with
        | false =>
          rw [adminCreateOrder] at h
          simp [hb0.1, hb0.2, hcid, hu, hp, hv] at h
        | true =>
          refine ⟨?_, ?_, rfl⟩
          · rw [adminCreateOrder]
            simp [hb0.1, hb0.2, hcid, hu, hp, hv]
            rfl
          · rw [adminCreateOrder]
            simp [hb0.1, hb0.2, hcid, hu, hp, hv]

/-- C2 (amended). Every order accepted by customer checkout or admin manual
entry is persisted with the client-submitted `subtotal`, `delivery_fee` and
`total` stored as given, and the persisted `total` is within the 0.01
epsilon of the recomputed authoritative subtotal plus the recomputed
delivery fee; the persisted `subtotal` and `delivery_fee` are not themselves
checked, so `subtotal + delivery_fee = total` is not guaranteed. -/
theorem acceptedOrder_total_matches_recomputed :
    (∀ (env : CreateEnv) (store : List Order) (uid : ℕ) (req : OrderReq) (oid : ℕ)
      (num : String), (createOrder env store uid req).1 = .created oid num →
      (createOrder env store uid req).2 = store ++ [persistedCustomerOrder env uid req] ∧
      (persistedCustomerOrder env uid req).subtotal = req.subtotal ∧
      (persistedCustomerOrder env uid req).delivery_fee = req.deliveryFee ∧
      (persistedCustomerOrder env uid req).total = req.total ∧
      |(persistedCustomerOrder env uid req).total -
        (recomputedSubtotal env.catalog req.items +
          recomputedFee env.feePolicy req.deliveryType)| ≤ priceEpsilon) ∧
    (∀ (env : CreateEnv) (users : List User) (store : List Order) (req : AdminCreateReq)
      (oid : ℕ) (num : String) (cid : ℕ), req.customerId = some cid →
      (adminCreateOrder env users store req).1 = .created oid num →
      (adminCreateOrder env users store req).2 =
        store ++ [persistedAdminOrder env cid store.length req] ∧
      (persistedAdminOrder env cid store.length req).subtotal = req.subtotal ∧
      (persistedAdminOrder env cid store.length req).delivery_fee = req.deliveryFee ∧
      (persistedAdminOrder env cid store.length req).total = req.total ∧
      |(persistedAdminOrder env cid store.length req).total -
        (recomputedSubtotal env.catalog req.items +
          recomputedFee env.feePolicy req.deliveryType)| ≤ priceEpsilon) := by
  constructor
  · intro env store uid req oid num h
    have hshape := createOrder_created_shape env store uid req oid num h
    refine ⟨hshape.2.1, rfl, rfl, rfl, ?_⟩
    simpa [persistedCustomerOrder] using validateOrder_isValid_total _ _ _ hshape.2.2
  · intro env users store req oid num cid hcid h
    have hshape := adminCreateOrder_created_shape env users store req oid num cid hcid h
    refine ⟨hshape.2.1, rfl, rfl, rfl, ?_⟩
    simpa [persistedAdminOrder, adminReqAsOrderReq] using validateOrder_isValid_total _ _ _ hshape.2.2

theorem authLineTotal_concreteItem :
    authLineTotal concreteEnv.catalog concreteItem = 20 := by
  have hpid : pidOf concreteItem = some "aaaaaaaaaaaaaaaaaaaaaaaa" := by decide
  have hlk : lookupProduct concreteEnv.catalog "aaaaaaaaaaaaaaaaaaaaaaaa" =
      some { price := 10, is_available := true } := by decide
  rw [authLineTotal, hpid]
  simp only [hlk]
  norm_num [concreteItem]

theorem recomputedSubtotal_concreteItems :
    recomputedSubtotal concreteEnv.catalog [concreteItem] = 20 := by
  rw [recomputedSubtotal, List.map_cons, List.map_nil, authLineTotal_concreteItem]
  norm_num

theorem validateOrder_concreteReq_isValid :
    (validateOrder concreteEnv.catalog concreteEnv.feePolicy concreteReq).isValid = true := by
  have hfm : List.filterMap (itemError concreteEnv.catalog) concreteReq.items = [] := by decide
  have habs : ¬(priceEpsilon <
      |concreteReq.total - (recomputedSubtotal concreteEnv.catalog concreteReq.items +
        recomputedFee concreteEnv.feePolicy concreteReq.deliveryType)|) := by
    have h1 : recomputedSubtotal concreteEnv.catalog concreteReq.items = 20 := by
      rw [show concreteReq.items = [concreteItem] from rfl, recomputedSubtotal_concreteItems]
    have h2 : recomputedFee concreteEnv.feePolicy concreteReq.deliveryType = 2 := by
      rw [recomputedFee]
      norm_num [concreteReq, concreteEnv]
      decide
    rw [h1, h2]
    norm_num [priceEpsilon, concreteReq]
  rw [validateOrder]
  simp only [hfm, if_neg habs]
  rfl

/-- A takeaway request whose item prices match the catalog and whose total
matches the recomputed total, but whose claimed `subtotal` and `deliveryFee`
are 0: the validator never compares those fields, so the order is accepted
and persisted with `subtotal + delivery_fee` differing from `total` by 20. -/
def inconsistentReq : OrderReq :=
  { concreteReq with deliveryType := "takeaway", subtotal := 0, deliveryFee := 0, total := 20 }

theorem validateOrder_inconsistentReq_isValid :
    (validateOrder concreteEnv.catalog concreteEnv.feePolicy inconsistentReq).isValid = true := by
  have hfm : List.filterMap (itemError concreteEnv.catalog) inconsistentReq.items = [] := by decide
  have habs : ¬(priceEpsilon <
      |inconsistentReq.total - (recomputedSubtotal concreteEnv.catalog inconsistentReq.items +
        recomputedFee concreteEnv.feePolicy inconsistentReq.deliveryType)|) := by
    have h1 : recomputedSubtotal concreteEnv.catalog inconsistentReq.items = 20 := by
      rw [show inconsistentReq.items = [concreteItem] from rfl, recomputedSubtotal_concreteItems]
    have h2 : recomputedFee concreteEnv.feePolicy inconsistentReq.deliveryType = 0 := by
      rw [recomputedFee]
      norm_num [inconsistentReq, concreteReq]
    rw [h1, h2]
    norm_num [priceEpsilon, inconsistentReq, concreteReq]
  rw [validateOrder]
  simp only [hfm, if_neg habs]
  rfl

theorem acceptedOrder_total_matches_recomputed_witness :
    (createOrder concreteEnv [] 7 concreteReq).2 =
      [] ++ [persistedCustomerOrder concreteEnv 7 concreteReq] ∧
    |(persistedCustomerOrder concreteEnv 7 concreteReq).total -
      (recomputedSubtotal concreteEnv.catalog concreteReq.items +
        recomputedFee concreteEnv.feePolicy concreteReq.deliveryType)| ≤ priceEpsilon := by
  have ha : activeOrdersCount [] 7 = 0 := by decide
  have hp : findInvalidPid concreteReq.items = none := by decide
  have hpromo : (concreteReq.promoCode.isSome && concreteEnv.promoAbuse) = false := by decide
  have h1 : (createOrder concreteEnv [] 7 concreteReq).1 =
      .created concreteEnv.nextId (persistedCustomerOrder concreteEnv 7 concreteReq).order_number := by
    rw [createOrder]
    simp [ha, hp, validateOrder_concreteReq_isValid, hpromo]
  have h := acceptedOrder_total_matches_recomputed.1 concreteEnv [] 7 concreteReq
    concreteEnv.nextId (persistedCustomerOrder concreteEnv 7 concreteReq).order_number h1
  exact ⟨h.1, h.2.2.2.2⟩

/-- C2 counterexample to the claim as stated: the inconsistent request is
accepted, and the single persisted order has `subtotal = 0`,
`delivery_fee = 0`, `total = 20`, violating `subtotal + delivery_fee = total`
far beyond the 0.01 epsilon. -/
theorem acceptedOrder_sum_mismatch_cex :
    isCreatedResp (createOrder concreteEnv [] 7 inconsistentReq).1 = true ∧
    (createOrder concreteEnv [] 7 inconsistentReq).2.map
      (fun o => (o.subtotal, o.delivery_fee, o.total)) = [(0, 0, 20)] ∧
    ¬(|(0 : ℚ) + 0 - 20| ≤ priceEpsilon) := by
  have ha : activeOrdersCount [] 7 = 0 := by decide
  have hp : findInvalidPid inconsistentReq.items = none := by decide
  have hpromo : (inconsistentReq.promoCode.isSome && concreteEnv.promoAbuse) = false := by decide
  refine ⟨?_, ?_, ?_⟩
  · rw [createOrder]
    simp [ha, hp, validateOrder_inconsistentReq_isValid, hpromo, isCreatedResp]
  · rw [createOrder]
    simp [ha, hp, validateOrder_inconsistentReq_isValid, hpromo]
    simp [persistedCustomerOrder, inconsistentReq, concreteReq]
  · norm_num [priceEpsilon]

/-- C4 (amended). The block and delete user-management routes reject an
admin target reached by a different admin with the 400
`cannotModifyAdmin` response and leave the users store unchanged; the
unblock and edit routes carry no such admin-target guard. -/
theorem adminTarget_block_delete_protected (users : List User) (adminId targetId : ℕ)
    (reason : Option String) (now : ℕ) (u : User)
    (hfind : findUser users targetId = some u) (hrole : u.role = "admin")
    (hself : targetId ≠ adminId) (hreason : blockReasonHasErrors reason = false) :
    blockUser users adminId targetId reason now = (.cannotModifyAdmin, users) ∧
    deleteUser users adminId targetId = (.cannotModifyAdmin, users) := by
  have hbeq : (targetId == adminId) = false := by
    simp [hself]
  have hrb : (u.role == "admin") = true := by
    simp [hrole]
  constructor
  · rw [blockUser, hreason, hbeq]
    simp only [Bool.false_eq_true, if_false, hfind, hrb, if_true]
  · rw [deleteUser, hbeq]
    simp only [Bool.false_eq_true, if_false, hfind, hrb, if_true]

/-- Two admins, used by the admin-on-admin scenarios. -/
def adminOne : User :=
  { uid := 1, email := "a1@x.com", full_name := "Admin One", role := "admin",
    is_verified := true, is_blocked := false, blocked_reason := none,
    blocked_at := none, blocked_by := none }

/-- The second admin, target of the admin-on-admin scenarios. -/
def adminTwo : User :=
  { adminOne with uid := 2, email := "a2@x.com", full_name := "Admin Two" }

/-- The users store holding the two admins. -/
def twoAdminsStore : List User := [adminOne, adminTwo]

theorem adminTarget_block_delete_protected_witness :
    blockUser twoAdminsStore 1 2 (some "spam spam") 9 = (.cannotModifyAdmin, twoAdminsStore) ∧
    deleteUser twoAdminsStore 1 2 = (.cannotModifyAdmin, twoAdminsStore) := by
  exact adminTarget_block_delete_protected twoAdminsStore 1 2 (some "spam spam") 9 adminTwo
    (by decide) (by decide) (by decide) (by decide)

/-- A blocked admin record (reachable by blocking a customer and then
promoting them to admin through the unguarded edit route). -/
def blockedAdmin : User :=
  { adminTwo with
    is_blocked := true, blocked_reason := some "old block",
    blocked_at := some 50, blocked_by := some 1 }

/-- C4 counterexample to the claim as stated: admin 1 edits the role of
admin 2 through `PUT /users/:id` — the call succeeds with `ok` (200, not
400) and the target's record changes role to `customer`; likewise admin 1
unblocks a blocked admin through `PATCH /users/:id/unblock`, which succeeds
and clears the block fields. -/
theorem adminTarget_editRole_not_protected_cex :
    (updateUser twoAdminsStore 1 2
      { full_name := none, email := none, role := some "customer", is_verified := none }).1 =
        .ok ∧
    findUser (updateUser twoAdminsStore 1 2
      { full_name := none, email := none, role := some "customer", is_verified := none }).2 2 =
      some { adminTwo with role := "customer" } ∧
    adminTwo.role = "admin" ∧
    (unblockUser [adminOne, blockedAdmin] 2).1 = .ok ∧
    findUser (unblockUser [adminOne, blockedAdmin] 2).2 2 =
      some { blockedAdmin with
             is_blocked := false, blocked_reason := none,
             blocked_at := none, blocked_by := none } ∧
    blockedAdmin.role = "admin" := by
  refine ⟨by decide, by decide, by decide, by decide, by decide, by decide⟩

/-- C5 (amended). A request by a blocked user through the `isAuthenticated`
guard is denied with the stored `blocked_reason` and the session is
destroyed. -/
theorem isAuthenticated_denies_blocked (users : List User) (uid : ℕ) (u : User)
    (hfind : findUser users uid = some u) (hblocked : u.is_blocked = true) :
    isAuthenticated users (some uid) = ⟨.blocked u.blocked_reason, true⟩ := by
  rw [isAuthenticated]
  simp only [hfind, hblocked, if_true]

/-- A blocked customer with a stored block reason. -/
def blockedCustomer : User :=
  { uid := 3, email := "c@x.com", full_name := "Blocked Customer", role := "customer",
    is_verified := true, is_blocked := true, blocked_reason := some "fraud",
    blocked_at := some 100, blocked_by := some 1 }

theorem isAuthenticated_denies_blocked_witness :
    isAuthenticated [blockedCustomer] (some 3) = ⟨.blocked (some "fraud"), true⟩ := by
  exact isAuthenticated_denies_blocked [blockedCustomer] 3 blockedCustomer (by decide) (by decide)

theorem randomDraw_bounds (r : ℚ) (h0 : 0 ≤ r) (h1 : r < 1) :
    1000 ≤ randomDraw r ∧ randomDraw r ≤ 9999 := by
  constructor
  · rw [randomDraw]
    refine Rat.le_floor.mpr ?_
    push_cast
    nlinarith
  · by_contra hlt
    push_neg at hlt
    have h4 : (10000 : ℤ) ≤ randomDraw r := by omega
    rw [randomDraw] at h4
    have h5 := Rat.le_floor.mp h4
    push_cast at h5
    nlinarith

/-- C8 (amended). A customer-checkout order number is
`ORD-<dateStr>-<randomDraw>`, where the random part lies in 1000..9999 when
the `Math.random` draw is in [0, 1); an admin-created order number is the
dash-less `ORD<now><orderCount + 1>`. The random part is drawn independently
per order with no uniqueness check, so distinct orders can share a number. -/
theorem orderNumber_forms :
    (∀ (env : CreateEnv) (store : List Order) (uid : ℕ) (req : OrderReq) (oid : ℕ)
      (num : String), (createOrder env store uid req).1 = .created oid num →
      num = "ORD-" ++ env.dateStr ++ "-" ++ toString (randomDraw env.rand) ∧
      (0 ≤ env.rand → env.rand < 1 →
        1000 ≤ randomDraw env.rand ∧ randomDraw env.rand ≤ 9999)) ∧
    (∀ (env : CreateEnv) (users : List User) (store : List Order) (req : AdminCreateReq)
      (oid : ℕ) (num : String) (cid : ℕ), req.customerId = some cid →
      (adminCreateOrder env users store req).1 = .created oid num →
      num = "ORD" ++ toString env.now ++ toString (store.length + 1)) := by
  constructor
  · intro env store uid req oid num h
    have hshape := createOrder_created_shape env store uid req oid num h
    rw [h] at hshape
    have hnum : num = customerOrderNumber env.dateStr env.rand := by
      have := hshape.1
      simp only [CreateResp.created.injEq] at this
      exact this.2
    exact ⟨hnum, fun h0 h1 => randomDraw_bounds env.rand h0 h1⟩
  · intro env users store req oid num cid hcid h
    have hshape := adminCreateOrder_created_shape env users store req oid num cid hcid h
    rw [h] at hshape
    have := hshape.1
    simp only [AdminCreateResp.created.injEq] at this
    exact this.2

theorem orderNumber_forms_witness :
    (persistedCustomerOrder concreteEnv 7 concreteReq).order_number =
      "ORD-" ++ concreteEnv.dateStr ++ "-" ++ toString (randomDraw concreteEnv.rand) ∧
    1000 ≤ randomDraw concreteEnv.rand ∧ randomDraw concreteEnv.rand ≤ 9999 := by
  have ha : activeOrdersCount [] 7 = 0 := by decide
  have hp : findInvalidPid concreteReq.items = none := by decide
  have hpromo : (concreteReq.promoCode.isSome && concreteEnv.promoAbuse) = false := by decide
  have h1 : (createOrder concreteEnv [] 7 concreteReq).1 =
      .created concreteEnv.nextId (persistedCustomerOrder concreteEnv 7 concreteReq).order_number := by
    rw [createOrder]
    simp [ha, hp, validateOrder_concreteReq_isValid, hpromo]
  have h := orderNumber_forms.1 concreteEnv [] 7 concreteReq concreteEnv.nextId
    (persistedCustomerOrder concreteEnv 7 concreteReq).order_number h1
  refine ⟨h.1, h.2 ?_ ?_⟩
  · norm_num [concreteEnv]
  · norm_num [concreteEnv]

/-- The environment of the second checkout of the duplicate-number scenario:
same date and same `Math.random` draw, fresh document id. -/
def envSecond : CreateEnv :=
  { concreteEnv with nextId := 43 }

/-- C8 counterexample to the claim as stated: two checkouts run with the
same date string and the same `Math.random` draw persist two orders —
belonging to customers 7 and 8 — carrying identical order numbers, so order
numbers are not globally unique; and an admin-created order number contains
no dash at all, so it is not of the `ORD-<YYYYMMDD>-<4-digit>` form. -/
theorem orderNumber_duplicate_cex :
    (createOrder envSecond (createOrder concreteEnv [] 7 concreteReq).2 8 concreteReq).2.map
        (fun o => o.order_number) =
      [customerOrderNumber concreteEnv.dateStr concreteEnv.rand,
       customerOrderNumber concreteEnv.dateStr concreteEnv.rand] ∧
    (createOrder envSecond (createOrder concreteEnv [] 7 concreteReq).2 8 concreteReq).2.map
        (fun o => o.customer) = [7, 8] ∧
    ¬((createOrder envSecond (createOrder concreteEnv [] 7 concreteReq).2 8 concreteReq).2.map
        (fun o => o.order_number)).Nodup ∧
    adminOrderNumber 1700000000000 3 = "ORD17000000000004" ∧
    ("ORD17000000000004".toList.contains (Char.ofNat 45)) = false := by
  have ha : activeOrdersCount [] 7 = 0 := by decide
  have hp : findInvalidPid concreteReq.items = none := by decide
  have hpromo : (concreteReq.promoCode.isSome && concreteEnv.promoAbuse) = false := by decide
  have hstep1 : (createOrder concreteEnv [] 7 concreteReq).2 =
      [] ++ [persistedCustomerOrder concreteEnv 7 concreteReq] := by
    rw [createOrder]
    simp [ha, hp, validateOrder_concreteReq_isValid, hpromo]
  rw [hstep1]
  have ha2 : activeOrdersCount [persistedCustomerOrder concreteEnv 7 concreteReq] 8 = 0 := by
    decide
  have hv2 : (validateOrder envSecond.catalog envSecond.feePolicy concreteReq).isValid = true := by
    rw [show envSecond.catalog = concreteEnv.catalog from rfl,
        show envSecond.feePolicy = concreteEnv.feePolicy from rfl]
    exact validateOrder_concreteReq_isValid
  have hpromo2 : (concreteReq.promoCode.isSome && envSecond.promoAbuse) = false := by decide
  have hstep2 : (createOrder envSecond
      ([] ++ [persistedCustomerOrder concreteEnv 7 concreteReq]) 8 concreteReq).2 =
      ([] ++ [persistedCustomerOrder concreteEnv 7 concreteReq]) ++
        [persistedCustomerOrder envSecond 8 concreteReq] := by
    rw [createOrder]
    simp [ha2, hp, hv2, hpromo2]
  rw [hstep2]
  refine ⟨rfl, rfl, ?_, by decide, by decide⟩
  simp [List.nodup_cons]
  rfl

/-- C5 counterexample to the claim as stated: the `userOnly` role guard —
which protects all the customer order routes — lets the blocked customer
through (`next()` is called), with no denial, no surfaced reason and no
session destruction; `adminOnly` likewise checks only the role. -/
theorem blocked_user_passes_role_guards_cex :
    blockedCustomer.is_blocked = true ∧
    userOnly [blockedCustomer] (some 3) = ⟨.allow, false⟩ ∧
    adminOnly [blockedCustomer] (some 3) = ⟨.forbidden "customer", false⟩ := by
  refine ⟨by decide, by decide, by decide⟩

end Backend

namespace Frontend

/-- C9. Cart hydration is all-or-nothing: when any persisted item fails the
stale-id test the whole cart hydrates to the empty list and the stored entry
is removed (discarding the valid items along with the invalid ones); when no
item is stale the full parsed list is restored; a failed JSON parse clears
the entry and hydrates empty; an absent entry hydrates empty without a
removal. -/
theorem hydrateCart_all_or_nothing (items : List FCartItem) :
    (items.any hasStaleId = true → hydrateCart (.parsed items) = ([], true)) ∧
    (items.any hasStaleId = false → hydrateCart (.parsed items) = (items, false)) ∧
    hydrateCart .malformed = ([], true) ∧
    hydrateCart .absent = ([], false) := by
  refine ⟨?_, ?_, rfl, rfl⟩
  · intro h
    simp [hydrateCart, h]
  · intro h
    simp [hydrateCart, h]

/-- A well-formed persisted cart item with an ObjectId-shaped string id. -/
def validFItem : FCartItem :=
  { _id := some (.jstr "abcdefabcdefabcdefabcdef"), id := none, name := "Margherita",
    price := 10, quantity := 1, selectedSize := some "M", selectedCrust := none }

/-- A stale persisted cart item carrying a numeric product id. -/
def staleFItem : FCartItem :=
  { validFItem with _id := some (.jnum 3), name := "Old Pizza" }

/-- A persisted cart item whose id is a binary integer literal of 24
characters: it passes the ObjectId shape regex, yet `Number` parses it, so
the `!isNaN` disjunct of the stale test fires and the cart is cleared. -/
def binaryIdFItem : FCartItem :=
  { validFItem with _id := some (.jstr "0b1111111111111111111111"), name := "Binary Pizza" }

theorem hydrateCart_all_or_nothing_witness :
    hydrateCart (.parsed [validFItem, staleFItem]) = ([], true) ∧
    hydrateCart (.parsed [validFItem]) = ([validFItem], false) ∧
    isValidObjectIdJs (productIdOf binaryIdFItem) = true ∧
    hydrateCart (.parsed [validFItem, binaryIdFItem]) = ([], true) := by
  exact ⟨(hydrateCart_all_or_nothing [validFItem, staleFItem]).1 (by decide),
         (hydrateCart_all_or_nothing [validFItem]).2.1 (by decide),
         by decide,
         (hydrateCart_all_or_nothing [validFItem, binaryIdFItem]).1 (by decide)⟩

/-- C10. If every cart item has quantity at least 1 then so does every item
after any cart operation; `updateQuantity` leaves a matched item unchanged —
still present, never dropped to 0 — whenever the delta would make its
quantity non-positive; and `addToCart` of a valid product without an
existing id/size/crust match appends it with quantity exactly 1. -/
theorem cart_quantity_invariant (cart : List FCartItem) (product : FCartItem)
    (id : Option JsId) (size crust : Option String) (delta : ℤ)
    (hinv : ∀ it ∈ cart, 1 ≤ it.quantity) :
    (∀ it ∈ addToCart cart product, 1 ≤ it.quantity) ∧
    (∀ it ∈ updateQuantity cart id size crust delta, 1 ≤ it.quantity) ∧
    (∀ it ∈ removeFromCart cart id size crust, 1 ≤ it.quantity) ∧
    (∀ it ∈ clearCart, 1 ≤ it.quantity) ∧
    (∀ it ∈ cart, sameKey it id size crust = true → it.quantity + delta ≤ 0 →
      it ∈ updateQuantity cart id size crust delta) ∧
    (isValidCartItem product = true →
      cart.any (fun it => sameKey it product.id product.selectedSize product.selectedCrust) = false →
      addToCart cart product = cart ++ [{ product with quantity := 1 }]) := by
  refine ⟨?_, ?_, ?_, ?_, ?_, ?_⟩
  · intro it hit
    rw [addToCart] at hit
    split at hit
    · exact hinv it hit
    · split at hit
      · obtain ⟨a, ha, rfl⟩ := List.mem_map.mp hit
        by_cases hk : sameKey a product.id product.selectedSize product.selectedCrust = true
        · rw [if_pos hk]
          have := hinv a ha
          simp only
          omega
        · rw [if_neg hk]
          exact hinv a ha
      · rcases List.mem_append.mp hit with hmem | hmem
        · exact hinv it hmem
        · rw [List.mem_singleton] at hmem
          subst hmem
          exact le_refl 1
  · intro it hit
    rw [updateQuantity] at hit
    obtain ⟨a, ha, rfl⟩ := List.mem_map.mp hit
    by_cases hk : sameKey a id size crust = true
    · rw [if_pos hk]
      simp only
      by_cases hq : 0 < a.quantity + delta
      · rw [if_pos hq]
        simp only
        omega
      · rw [if_neg hq]
        exact hinv a ha
    · rw [if_neg hk]
      exact hinv a ha
  · intro it hit
    rw [removeFromCart] at hit
    exact hinv it (List.mem_of_mem_filter hit)
  · intro it hit
    simp [clearCart] at hit
  · intro it hit hkey hle
    rw [updateQuantity]
    refine List.mem_map.mpr ⟨it, hit, ?_⟩
    rw [if_pos hkey]
    simp only
    rw [if_neg (by omega)]
  · intro hvalid hnone
    rw [addToCart, hvalid, hnone]
    simp

/-- C10 witness: from a cart holding the valid item at quantity 1, a
decrement leaves the item present and unchanged, adding a fresh product
appends it at quantity 1, and every result keeps all quantities at least
1. -/
def otherFItem : FCartItem :=
  { validFItem with
    _id := some (.jstr "0123456789ab0123456789ab"),
    id := some (.jstr "0123456789ab0123456789ab"),
    name := "Pepperoni" }

theorem cart_quantity_invariant_witness :
    (∀ it ∈ addToCart [validFItem] otherFItem, 1 ≤ it.quantity) ∧
    validFItem ∈ updateQuantity [validFItem] validFItem.id validFItem.selectedSize
      validFItem.selectedCrust (-1) ∧
    addToCart [validFItem] otherFItem = [validFItem] ++ [{ otherFItem with quantity := 1 }] := by
  have h := cart_quantity_invariant [validFItem] otherFItem validFItem.id
    validFItem.selectedSize validFItem.selectedCrust (-1) (by decide)
  refine ⟨h.1, ?_, ?_⟩
  · exact h.2.2.2.2.1 validFItem (by simp) (by decide) (by decide)
  · exact h.2.2.2.2.2 (by decide) (by decide)

end Frontend

end Pizza
